import Mathlib

/-
Verification development for the MWAA (managed workflow-orchestration
environment) provisioning stack in modules/orchestration/mwaa/stack.py.

The stack is a single-shot declarative construction: we embed it as pure
Lean functions from the constructor inputs to a record of the declared
resources (bucket, file-upload deployments, IAM role with its inline
policy document, network configuration, managed environment).  IAM
condition operators (StringEquals / StringLike) are given their standard
semantics; StringLike patterns use the glob matcher defined below.
-/

namespace MWAA

/-- Effect of an IAM policy statement. -/
inductive Effect
  | ALLOW
  | DENY
deriving DecidableEq, Repr

/-- An IAM policy statement: action list, effect, resource (or
not-resource) ARN patterns, and condition entries, each condition entry
being (operator, condition-key, value-pattern).  CDK defaults the effect
to ALLOW and the resource lists to empty when omitted. -/
structure PolicyStatement where
  actions : List String
  effect : Effect := Effect.ALLOW
  resources : List String := []
  not_resources : List String := []
  conditions : List (String × String × String) := []
deriving DecidableEq, Repr

/-- Removal policy of a CDK-managed resource. -/
inductive RemovalPolicy
  | DESTROY
  | RETAIN
deriving DecidableEq, Repr

/-- Bucket server-side encryption mode. -/
inductive BucketEncryption
  | KMS_MANAGED
  | S3_MANAGED
  | UNENCRYPTED
deriving DecidableEq, Repr

/-- Public-access block configuration of a bucket. -/
inductive BlockPublicAccess
  | BLOCK_ALL
deriving DecidableEq, Repr

/-- Properties declared when the stack creates a new storage bucket
(stack.py lines 72-81). -/
structure BucketProps where
  versioned : Bool
  bucket_name : String
  removal_policy : RemovalPolicy
  encryption : BucketEncryption
  block_public_access : BlockPublicAccess
  enforce_ssl : Bool
deriving DecidableEq, Repr

/-- The dag bucket handle: either a reference to an existing bucket
resolved by name (aws_s3.Bucket.from_bucket_name) carrying no creation
properties, or a newly created bucket with its declared properties. -/
inductive DagBucket
  | fromName (name : String)
  | created (props : BucketProps)
deriving DecidableEq, Repr

/-- ARN of the bucket a handle refers to.  For a by-name reference CDK
formats the ARN from the name; for a created bucket, from its declared
name. -/
def DagBucket.bucket_arn : DagBucket → String
  | DagBucket.fromName n => "arn:aws:s3:::" ++ n
  | DagBucket.created p => "arn:aws:s3:::" ++ p.bucket_name

/-- A file-upload deployment into the bucket (aws_s3_deployment).
destination_key_pfx models the destination_key_prefix argument of the
source. -/
structure BucketDeployment where
  id : String
  destination_bucket : DagBucket
  source_asset : String
  destination_key_pfx : String
deriving DecidableEq, Repr

/-- Per-channel logging configuration of the managed environment. -/
structure ModuleLogging where
  enabled : Bool
  log_level : String
deriving DecidableEq, Repr

/-- The five logging channels of the managed environment. -/
structure LoggingConfiguration where
  task_logs : ModuleLogging
  worker_logs : ModuleLogging
  scheduler_logs : ModuleLogging
  dag_processing_logs : ModuleLogging
  webserver_logs : ModuleLogging
deriving DecidableEq, Repr

/-- Network configuration of the managed environment. -/
structure NetworkConfiguration where
  security_group_ids : List String
  subnet_ids : List String
deriving DecidableEq, Repr

/-- The IAM service role: principals, the inline policy document (a named
list of statements), managed policy references, path, and the statements
appended by add_to_policy after role creation. -/
structure Role where
  assumed_by : List String
  inline_policies : List (String × List PolicyStatement)
  managed_policies : List String
  path : String
  added_statements : List PolicyStatement
deriving DecidableEq, Repr

/-- The managed-environment declaration (aws_mwaa.CfnEnvironment),
together with the creation-order dependencies recorded on its node. -/
structure CfnEnvironment where
  dag_s3_path : String
  airflow_version : String
  environment_class : String
  execution_role : Role
  logging_configuration : LoggingConfiguration
  name : String
  network_configuration : NetworkConfiguration
  max_workers : Int
  plugins_s3_path : String
  requirements_s3_path : String
  source_bucket_arn : String
  webserver_access_mode : String
  dependencies : List String
deriving DecidableEq, Repr

/-- Constructor parameters of MWAAStack, together with the ambient
account/region context (aws_cdk.Aws.ACCOUNT_ID / REGION). -/
structure MWAAStackInputs where
  project_name : String
  deployment_name : String
  module_name : String
  vpc_id : String
  private_subnet_ids : List String
  dag_bucket_name : Option String := none
  dag_path : String := "dags"
  environment_class : String := "mw1.small"
  airflow_version : String
  max_workers : Int := 25
  unique_requirements_file : String
  stack_description : String
  account : String
  region : String
deriving DecidableEq, Repr

/-- Python string slicing s[:n]: the first n characters. -/
def pyTake (s : String) (n : Nat) : String := ⟨s.data.take n⟩

/-- dep_mod (stack.py line 49): project-deployment-module identifier. -/
def dep_mod (i : MWAAStackInputs) : String :=
  i.project_name ++ "-" ++ i.deployment_name ++ "-" ++ i.module_name

/-- full_dep_mod (stack.py line 52): dep_mod truncated to 256 characters,
used as the Deployment tag value. -/
def full_dep_mod (i : MWAAStackInputs) : String :=
  if (dep_mod i).length > 256 then pyTake (dep_mod i) 256 else dep_mod i

/-- The bucket created when no existing bucket name is given
(stack.py lines 72-81). -/
def created_dag_bucket (i : MWAAStackInputs) : BucketProps :=
  { versioned := true
    bucket_name := dep_mod i ++ "-" ++ i.account ++ "-" ++ i.region
    removal_policy := RemovalPolicy.DESTROY
    encryption := BucketEncryption.KMS_MANAGED
    block_public_access := BlockPublicAccess.BLOCK_ALL
    enforce_ssl := true }

/-- Resolution of the dag bucket (stack.py lines 69-81).  Python
truthiness: both None and the empty string fall through to creation. -/
def dag_bucket (i : MWAAStackInputs) : DagBucket :=
  match i.dag_bucket_name with
  | some name => if name = "" then DagBucket.created (created_dag_bucket i)
                 else DagBucket.fromName name
  | none => DagBucket.created (created_dag_bucket i)

/-- Statement 1 (stack.py lines 105-109): airflow:PublishMetrics. -/
def airflow_metrics_statement (i : MWAAStackInputs) : PolicyStatement :=
  { actions := ["airflow:PublishMetrics"]
    effect := Effect.ALLOW
    resources := ["arn:aws:airflow:" ++ i.region ++ ":" ++ i.account ++ ":environment/"
      ++ i.project_name ++ "-" ++ i.deployment_name ++ "-*"] }

/-- Statement 2 (stack.py lines 110-114): batch:SubmitJob (scoped, as in
the source, to the airflow environment ARN pattern). -/
def batch_submit_statement (i : MWAAStackInputs) : PolicyStatement :=
  { actions := ["batch:SubmitJob"]
    effect := Effect.ALLOW
    resources := ["arn:aws:airflow:" ++ i.region ++ ":" ++ i.account ++ ":environment/"
      ++ i.project_name ++ "-" ++ i.deployment_name ++ "-*"] }

/-- Statement 3 (stack.py lines 115-119): eks:DescribeCluster. -/
def eks_describe_statement (i : MWAAStackInputs) : PolicyStatement :=
  { actions := ["eks:DescribeCluster"]
    effect := Effect.ALLOW
    resources := ["arn:aws:eks:" ++ i.region ++ ":" ++ i.account ++ ":cluster/"
      ++ i.project_name ++ "-" ++ i.deployment_name ++ "-*"] }

/-- Statement 4 (stack.py lines 120-134): S3 object read/write on the dag
bucket, in the two resource forms arn/* and arn. -/
def s3_access_statement (bucket_arn : String) : PolicyStatement :=
  { actions := ["s3:GetBucket*", "s3:GetObject*", "s3:PutObject", "s3:PutObjectAcl",
      "s3:List*", "s3:PutObjectTagging"]
    effect := Effect.ALLOW
    resources := [bucket_arn ++ "/*", bucket_arn] }

/-- Statement 5 (stack.py lines 135-145): KMS actions with not_resources
and a kms:ViaService StringLike condition; effect defaults to ALLOW. -/
def kms_statement (i : MWAAStackInputs) : PolicyStatement :=
  { actions := ["kms:Decrypt", "kms:Encrypt", "kms:ReEncrypt*", "kms:DescribeKey",
      "kms:GenerateDataKey"]
    not_resources := ["arn:aws:kms:*:" ++ i.account ++ ":key/*"]
    conditions := [("StringLike", "kms:ViaService", "sqs." ++ i.region ++ ".amazonaws.com")] }

/-- Statement 6 (stack.py lines 146-159): the eight-log-action statement
on the namespaced airflow log groups. -/
def logs_statement (i : MWAAStackInputs) : PolicyStatement :=
  { actions := ["logs:CreateLogStream", "logs:CreateLogGroup", "logs:PutLogEvents",
      "logs:GetLogEvents", "logs:GetLogRecord", "logs:GetLogGroupFields",
      "logs:GetQueryResults", "logs:DescribeLogGroups"]
    effect := Effect.ALLOW
    resources := ["arn:aws:logs:" ++ i.region ++ ":" ++ i.account ++ ":log-group:airflow-"
      ++ i.project_name ++ "*"] }

/-- Statement 7 (stack.py lines 160-164): logs:DescribeLogGroups. -/
def logs_describe_statement (i : MWAAStackInputs) : PolicyStatement :=
  { actions := ["logs:DescribeLogGroups"]
    effect := Effect.ALLOW
    resources := ["arn:aws:logs::" ++ i.account ++ ":*"] }

/-- Statement 8 (stack.py lines 165-169): cloudwatch:PutMetricData. -/
def cloudwatch_statement : PolicyStatement :=
  { actions := ["cloudwatch:PutMetricData"]
    effect := Effect.ALLOW
    resources := ["*"] }

/-- Statement 9 (stack.py lines 170-181): SQS actions on celery queues. -/
def sqs_statement (i : MWAAStackInputs) : PolicyStatement :=
  { actions := ["sqs:ChangeMessageVisibility", "sqs:DeleteMessage", "sqs:GetQueueAttributes",
      "sqs:GetQueueUrl", "sqs:ReceiveMessage", "sqs:SendMessage"]
    effect := Effect.ALLOW
    resources := ["arn:aws:sqs:" ++ i.region ++ ":*:airflow-celery-*"] }

/-- Statement 10 (stack.py lines 182-186): sts:AssumeRole. -/
def sts_assume_statement (i : MWAAStackInputs) : PolicyStatement :=
  { actions := ["sts:AssumeRole"]
    effect := Effect.ALLOW
    resources := ["arn:aws:iam::" ++ i.account ++ ":role/" ++ i.project_name ++ "-*"] }

/-- Statement 11 (stack.py lines 187-196): dynamodb wildcard actions. -/
def dynamodb_statement (i : MWAAStackInputs) : PolicyStatement :=
  { actions := ["dynamodb:*"]
    effect := Effect.ALLOW
    resources := ["arn:aws:dynamodb:" ++ i.region ++ ":" ++ i.account ++ ":table/"
      ++ i.project_name ++ "-" ++ i.deployment_name ++ "-" ++ i.module_name ++ "*"] }

/-- Statement 12 (stack.py lines 197-207): sagemaker processing jobs. -/
def sagemaker_statement (i : MWAAStackInputs) : PolicyStatement :=
  { actions := ["sagemaker:CreateProcessingJob", "sagemaker:DescribeProcessingJob",
      "sagemaker:ListProcessingJob"]
    effect := Effect.ALLOW
    resources := ["arn:aws:sagemaker:" ++ i.region ++ ":" ++ i.account ++ ":processing-job/*"] }

/-- Statement 13 (stack.py lines 208-222): emr-serverless application
management. -/
def emr_serverless_statement (i : MWAAStackInputs) : PolicyStatement :=
  { actions := ["emr-serverless:CreateApplication", "emr-serverless:GetApplication",
      "emr-serverless:StartApplication", "emr-serverless:StopApplication",
      "emr-serverless:DeleteApplication", "emr-serverless:StartJobRun",
      "emr-serverless:GetJobRun"]
    effect := Effect.ALLOW
    resources := ["arn:aws:emr-serverless:" ++ i.region ++ ":" ++ i.account
      ++ ":/applications/*"] }

/-- The inline policy document (stack.py lines 103-224): the 13 base
statements in source order. -/
def mwaa_policy_document (i : MWAAStackInputs) (bucket_arn : String) : List PolicyStatement :=
  [airflow_metrics_statement i, batch_submit_statement i, eks_describe_statement i,
   s3_access_statement bucket_arn, kms_statement i, logs_statement i,
   logs_describe_statement i, cloudwatch_statement, sqs_statement i,
   sts_assume_statement i, dynamodb_statement i, sagemaker_statement i,
   emr_serverless_statement i]

/-- First PassRole statement (stack.py lines 241-247): StringEquals
condition on sagemaker. -/
def sagemaker_pass_role_statement : PolicyStatement :=
  { actions := ["iam:PassRole"]
    resources := ["*"]
    conditions := [("StringEquals", "iam:PassedToService", "sagemaker.amazonaws.com")] }

/-- Second PassRole statement (stack.py lines 249-255): StringLike
condition on emr-serverless. -/
def emr_pass_role_statement : PolicyStatement :=
  { actions := ["iam:PassRole"]
    resources := ["*"]
    conditions := [("StringLike", "iam:PassedToService", "emr-serverless.amazonaws.com")] }

/-- The service role (stack.py lines 226-255) after both add_to_policy
calls. -/
def mwaa_service_role (i : MWAAStackInputs) (bucket_arn : String) : Role :=
  { assumed_by := ["airflow.amazonaws.com", "airflow-env.amazonaws.com"]
    inline_policies := [("CDKmwaaPolicyDocument", mwaa_policy_document i bucket_arn)]
    managed_policies := ["AWSBatchFullAccess", "AWSXRayDaemonWriteAccess"]
    path := "/service-role/"
    added_statements := [sagemaker_pass_role_statement, emr_pass_role_statement] }

/-- Logging configuration (stack.py lines 257-265): all five channels
enabled at INFO. -/
def mwaa_logging_conf : LoggingConfiguration :=
  { task_logs := { enabled := true, log_level := "INFO" }
    worker_logs := { enabled := true, log_level := "INFO" }
    scheduler_logs := { enabled := true, log_level := "INFO" }
    dag_processing_logs := { enabled := true, log_level := "INFO" }
    webserver_logs := { enabled := true, log_level := "INFO" } }

/-- Network configuration (stack.py lines 270-273): the security group
and the first two private subnet ids (Python slice [0:2]). -/
def mwaa_network_configuration (i : MWAAStackInputs) : NetworkConfiguration :=
  { security_group_ids := ["mwaa-sg"]
    subnet_ids := i.private_subnet_ids.take 2 }

/-- The complete stack: every resource the constructor declares. -/
structure MWAAStackModel where
  deployment_tag : String
  dag_bucket : DagBucket
  plugins_deployment : BucketDeployment
  requirements_deployment : BucketDeployment
  mwaa_service_role : Role
  mwaa_environment : CfnEnvironment
deriving DecidableEq, Repr

/-- Elaboration of MWAAStack.__init__ (stack.py lines 24-296). -/
def mkMWAAStack (i : MWAAStackInputs) : MWAAStackModel :=
  let bucket := dag_bucket i
  let role := mwaa_service_role i bucket.bucket_arn
  { deployment_tag := full_dep_mod i
    dag_bucket := bucket
    plugins_deployment :=
      { id := "airflow-dag-plugins", destination_bucket := bucket,
        source_asset := "plugins", destination_key_pfx := "plugins" }
    requirements_deployment :=
      { id := "airflow-dag-requirements", destination_bucket := bucket,
        source_asset := "requirements", destination_key_pfx := "requirements" }
    mwaa_service_role := role
    mwaa_environment :=
      { dag_s3_path := i.dag_path
        airflow_version := i.airflow_version
        environment_class := i.environment_class
        execution_role := role
        logging_configuration := mwaa_logging_conf
        name := dep_mod i ++ "-environment"
        network_configuration := mwaa_network_configuration i
        max_workers := i.max_workers
        plugins_s3_path := "plugins/plugins.zip"
        requirements_s3_path := i.unique_requirements_file
        source_bucket_arn := bucket.bucket_arn
        webserver_access_mode := "PUBLIC_ONLY"
        dependencies := ["airflow-dag-plugins", "airflow-dag-requirements"] } }

/-- IAM wildcard (StringLike / resource-pattern) matching on character
lists: a star matches any character sequence, a question mark any single
character, every other pattern character matches itself.  Structural
recursion on the pattern; the star case tries every suffix of the
subject. -/
def globMatch : List Char → List Char → Bool
  | [], s => s.isEmpty
  | p :: ps, s =>
    if p = '*' then s.tails.any (fun t => globMatch ps t)
    else
      match s with
      | [] => false
      | c :: cs => (p = '?' || p = c) && globMatch ps cs

/-- IAM StringLike matching on strings. -/
def strLike (pat s : String) : Bool := globMatch pat.data s.data

/-- A pattern with no wildcard characters matches exactly itself. -/
theorem globMatch_literal (p : List Char) (hp : ∀ c ∈ p, ¬c = '*' ∧ ¬c = '?') (s : List Char) :
    globMatch p s = true ↔ s = p := by
  induction p generalizing s with
  | nil => cases s <;> simp [globMatch]
  | cons q ps ih =>
    have hq := hp q (List.mem_cons_self q ps)
    have hps : ∀ c ∈ ps, ¬c = '*' ∧ ¬c = '?' := fun c hc => hp c (List.mem_cons_of_mem q hc)
    cases s with
    | nil => simp [globMatch, hq.1]
    | cons c cs =>
      simp only [globMatch, if_neg hq.1, Bool.and_eq_true, Bool.or_eq_true, decide_eq_true_eq,
        ih hps, List.cons.injEq]
      constructor
      · rintro ⟨hc, rfl⟩
        rcases hc with hc | hc
        · exact absurd hc hq.2
        · exact ⟨hc.symm, rfl⟩
      · rintro ⟨rfl, rfl⟩
        exact ⟨Or.inr rfl, rfl⟩

/-- Matching a star-headed pattern is matching the tail pattern against
some suffix. -/
theorem globMatch_star_cons (ps s : List Char) :
    globMatch ('*' :: ps) s = true ↔ ∃ u v, s = u ++ v ∧ globMatch ps v = true := by
  simp only [globMatch, if_true, List.any_eq_true]
  constructor
  · rintro ⟨t, ht, hm⟩
    rw [List.mem_tails] at ht
    obtain ⟨u, hu⟩ := ht
    exact ⟨u, t, hu.symm, hm⟩
  · rintro ⟨u, v, rfl, hm⟩
    exact ⟨v, by rw [List.mem_tails]; exact ⟨u, rfl⟩, hm⟩

/-- A single star matches everything. -/
theorem globMatch_star (s : List Char) : globMatch ['*'] s = true := by
  rw [globMatch_star_cons]
  exact ⟨s, [], by simp, rfl⟩

/-- Peeling a literal prefix off a pattern. -/
theorem globMatch_literal_append (p : List Char) (hp : ∀ c ∈ p, ¬c = '*' ∧ ¬c = '?')
    (ps s : List Char) :
    globMatch (p ++ ps) s = true ↔ ∃ t, s = p ++ t ∧ globMatch ps t = true := by
  induction p generalizing s with
  | nil => simp
  | cons q p₂ ih =>
    have hq := hp q (List.mem_cons_self q p₂)
    have hp₂ : ∀ c ∈ p₂, ¬c = '*' ∧ ¬c = '?' := fun c hc => hp c (List.mem_cons_of_mem q hc)
    cases s with
    | nil =>
      simp only [List.cons_append, globMatch, if_neg hq.1]
      simp
    | cons c cs =>
      simp only [List.cons_append, globMatch, if_neg hq.1, Bool.and_eq_true, Bool.or_eq_true,
        decide_eq_true_eq, List.append_eq, ih hp₂, List.cons.injEq]
      constructor
      · rintro ⟨hc, t, rfl, hm⟩
        rcases hc with hc | hc
        · exact absurd hc hq.2
        · exact ⟨t, ⟨hc.symm, rfl⟩, hm⟩
      · rintro ⟨t, ⟨rfl, rfl⟩, hm⟩
        exact ⟨Or.inr rfl, t, rfl, hm⟩

/-- Evaluation of one IAM condition operator on a pattern and a request
value: StringEquals is exact equality, StringLike is wildcard matching. -/
def condValueMatches (op pat value : String) : Bool :=
  if op = "StringEquals" then value == pat
  else if op = "StringLike" then strLike pat value
  else false

/-- A request context (key, value) satisfies a condition block when every
entry for that key matches the value. -/
def conditionsAllow (conds : List (String × String × String)) (key value : String) : Bool :=
  conds.all (fun c => c.2.1 != key || condValueMatches c.1 c.2.2 value)

/-- Two colon-free segments terminated by a colon and equal as prefixes of
the same list are equal, and so are the remainders. -/
theorem append_cons_colon_inj (a : List Char) :
    ∀ (b t₁ t₂ : List Char), ':' ∉ a → ':' ∉ b →
      a ++ ':' :: t₁ = b ++ ':' :: t₂ → a = b ∧ t₁ = t₂ := by
  induction a with
  | nil =>
    intro b t₁ t₂ _ hb h
    cases b with
    | nil => simpa using h
    | cons d b₂ =>
      simp only [List.nil_append, List.cons_append, List.cons.injEq] at h
      refine absurd ?_ hb
      rw [← h.1]
      exact List.mem_cons_self ':' b₂
  | cons c a₂ ih =>
    intro b t₁ t₂ ha hb h
    cases b with
    | nil =>
      simp only [List.nil_append, List.cons_append, List.cons.injEq] at h
      refine absurd ?_ ha
      rw [h.1]
      exact List.mem_cons_self ':' a₂
    | cons d b₂ =>
      simp only [List.cons_append, List.cons.injEq] at h
      obtain ⟨rfl, h₂⟩ := h
      have ha₂ : ':' ∉ a₂ := fun hm => ha (List.mem_cons_of_mem c hm)
      have hb₂ : ':' ∉ b₂ := fun hm => hb (List.mem_cons_of_mem c hm)
      obtain ⟨rfl, ht⟩ := ih b₂ t₁ t₂ ha₂ hb₂ h₂
      exact ⟨rfl, ht⟩

/-- In a list with exactly two colon-delimited cuts on each side, equal
lists force the middle (second) segments to agree, provided the named
segments are colon-free. -/
theorem two_colon_eq (R A k K u acc w : List Char)
    (hR : ':' ∉ R) (hA : ':' ∉ A) (hK : ':' ∉ K) (hacc : ':' ∉ acc) (hk : ':' ∉ k)
    (h : R ++ ':' :: (A ++ ':' :: (k ++ K)) = u ++ ':' :: (acc ++ ':' :: (k ++ w))) :
    A = acc := by
  have hcnt := congrArg (List.count ':') h
  simp only [List.count_append, List.count_cons_self,
    List.count_eq_zero.mpr hR, List.count_eq_zero.mpr hA, List.count_eq_zero.mpr hK,
    List.count_eq_zero.mpr hacc, List.count_eq_zero.mpr hk] at hcnt
  have hu : ':' ∉ u := List.count_eq_zero.mp (by omega)
  obtain ⟨rfl, h₂⟩ := append_cons_colon_inj R u _ _ hR hu h
  exact (append_cons_colon_inj A acc _ _ hA hacc h₂).1

/-- Characterization of the not_resources pattern of the KMS statement: a
subject matches arn:aws:kms:*:acc:key/* exactly when it decomposes around
the two literal segments, the stars absorbing arbitrary residues. -/
theorem kms_pattern_iff (acc : String) (haccW : ∀ c ∈ acc.data, ¬c = '*' ∧ ¬c = '?')
    (s : List Char) :
    globMatch ("arn:aws:kms:*:" ++ acc ++ ":key/*").data s = true ↔
      ∃ u w, s = "arn:aws:kms:".data ++
        (u ++ (((':' :: acc.data) ++ (':' :: "key/".data)) ++ w)) := by
  have e₁ : "arn:aws:kms:*:".data = "arn:aws:kms:".data ++ ['*', ':'] := by decide
  have e₂ : ":key/*".data = (':' :: "key/".data) ++ ['*'] := by decide
  have hlit : ∀ c ∈ "arn:aws:kms:".data, ¬c = '*' ∧ ¬c = '?' := by decide
  have hkey : ∀ c ∈ "key/".data, ¬c = '*' ∧ ¬c = '?' := by decide
  have hmid : ∀ c ∈ (':' :: acc.data) ++ (':' :: "key/".data), ¬c = '*' ∧ ¬c = '?' := by
    intro c hc
    rcases List.mem_append.mp hc with hc | hc
    · rcases List.mem_cons.mp hc with rfl | hc
      · exact ⟨by decide, by decide⟩
      · exact haccW c hc
    · rcases List.mem_cons.mp hc with rfl | hc
      · exact ⟨by decide, by decide⟩
      · exact hkey c hc
  have hpat : ("arn:aws:kms:*:" ++ acc ++ ":key/*").data
      = "arn:aws:kms:".data
        ++ ('*' :: ((((':' :: acc.data) ++ (':' :: "key/".data)) ++ ['*']))) := by
    rw [String.data_append, String.data_append, e₁, e₂]
    simp [List.append_assoc]
  rw [hpat,
    globMatch_literal_append "arn:aws:kms:".data hlit
      ('*' :: ((((':' :: acc.data) ++ (':' :: "key/".data)) ++ ['*']))) s]
  constructor
  · rintro ⟨t, rfl, hm⟩
    rw [globMatch_star_cons] at hm
    obtain ⟨u, v, rfl, hv⟩ := hm
    rw [globMatch_literal_append _ hmid _ v] at hv
    obtain ⟨w, rfl, -⟩ := hv
    exact ⟨u, w, by simp [List.append_assoc]⟩
  · rintro ⟨u, w, rfl⟩
    refine ⟨u ++ (((':' :: acc.data) ++ (':' :: "key/".data)) ++ w), rfl, ?_⟩
    rw [globMatch_star_cons]
    refine ⟨u, ((':' :: acc.data) ++ (':' :: "key/".data)) ++ w, rfl, ?_⟩
    rw [globMatch_literal_append _ hmid _ _]
    exact ⟨w, rfl, globMatch_star w⟩

/-- The not_resources pattern of the KMS statement matches a well-formed
key ARN exactly when the account segment of that ARN is the one baked
into the pattern (segments colon-free, the account wildcard-free). -/
theorem kms_key_arn_match (acc R A K : String)
    (haccC : ':' ∉ acc.data) (haccW : ∀ c ∈ acc.data, ¬c = '*' ∧ ¬c = '?')
    (hR : ':' ∉ R.data) (hA : ':' ∉ A.data) (hK : ':' ∉ K.data) :
    (strLike ("arn:aws:kms:*:" ++ acc ++ ":key/*")
      ("arn:aws:kms:" ++ R ++ ":" ++ A ++ ":key/" ++ K) = true) ↔ A = acc := by
  have hk : ':' ∉ "key/".data := by decide
  have hs : ("arn:aws:kms:" ++ R ++ ":" ++ A ++ ":key/" ++ K).data
      = "arn:aws:kms:".data
        ++ (R.data ++ (':' :: (A.data ++ (':' :: ("key/".data ++ K.data))))) := by
    have e₃ : ":".data = [':'] := by decide
    have e₄ : ":key/".data = ':' :: "key/".data := by decide
    simp only [String.data_append, e₃, e₄]
    simp [List.append_assoc]
  rw [strLike, kms_pattern_iff acc haccW, hs]
  constructor
  · rintro ⟨u, w, heq⟩
    have heq₂ : R.data ++ (':' :: (A.data ++ (':' :: ("key/".data ++ K.data))))
        = u ++ (':' :: (acc.data ++ (':' :: ("key/".data ++ w)))) := by
      have h₃ := List.append_cancel_left heq
      rw [h₃]
      simp [List.append_assoc]
    have := two_colon_eq R.data A.data "key/".data K.data u acc.data w
      hR hA hK haccC hk (by simpa using heq₂)
    exact String.ext this
  · rintro rfl
    exact ⟨R.data, K.data, by simp [List.append_assoc]⟩

/-- Sample constructor inputs used to instantiate universally quantified
theorems at concrete values. -/
def sample_inputs : MWAAStackInputs :=
  { project_name := "idf"
    deployment_name := "dep"
    module_name := "mwaa"
    vpc_id := "vpc-12345"
    private_subnet_ids := ["subnet-a", "subnet-b", "subnet-c"]
    airflow_version := "2.5.1"
    unique_requirements_file := "requirements/requirements-abc.txt"
    stack_description := "MWAA module stack"
    account := "123456789012"
    region := "us-east-1" }

/-- Claim C1: for every identity context and bucket ARN, the policy
document attached inline to the service role consists of exactly the 13
catalogued base statements in order, the role gains exactly the 2
iam:PassRole statements after creation, and all 15 statements have
non-empty action lists. -/
theorem C1_policy_statement_catalogue (i : MWAAStackInputs) (bucket_arn : String) :
    (mkMWAAStack i).mwaa_service_role = mwaa_service_role i (dag_bucket i).bucket_arn ∧
    (mwaa_service_role i bucket_arn).inline_policies =
      [("CDKmwaaPolicyDocument", mwaa_policy_document i bucket_arn)] ∧
    (mwaa_policy_document i bucket_arn).length = 13 ∧
    (mwaa_service_role i bucket_arn).added_statements.length = 2 ∧
    (mwaa_policy_document i bucket_arn).map PolicyStatement.actions =
      [["airflow:PublishMetrics"], ["batch:SubmitJob"], ["eks:DescribeCluster"],
       ["s3:GetBucket*", "s3:GetObject*", "s3:PutObject", "s3:PutObjectAcl", "s3:List*",
        "s3:PutObjectTagging"],
       ["kms:Decrypt", "kms:Encrypt", "kms:ReEncrypt*", "kms:DescribeKey",
        "kms:GenerateDataKey"],
       ["logs:CreateLogStream", "logs:CreateLogGroup", "logs:PutLogEvents", "logs:GetLogEvents",
        "logs:GetLogRecord", "logs:GetLogGroupFields", "logs:GetQueryResults",
        "logs:DescribeLogGroups"],
       ["logs:DescribeLogGroups"], ["cloudwatch:PutMetricData"],
       ["sqs:ChangeMessageVisibility", "sqs:DeleteMessage", "sqs:GetQueueAttributes",
        "sqs:GetQueueUrl", "sqs:ReceiveMessage", "sqs:SendMessage"],
       ["sts:AssumeRole"], ["dynamodb:*"],
       ["sagemaker:CreateProcessingJob", "sagemaker:DescribeProcessingJob",
        "sagemaker:ListProcessingJob"],
       ["emr-serverless:CreateApplication", "emr-serverless:GetApplication",
        "emr-serverless:StartApplication", "emr-serverless:StopApplication",
        "emr-serverless:DeleteApplication", "emr-serverless:StartJobRun",
        "emr-serverless:GetJobRun"]] ∧
    (mwaa_service_role i bucket_arn).added_statements.map PolicyStatement.actions =
      [["iam:PassRole"], ["iam:PassRole"]] ∧
    ((mwaa_policy_document i bucket_arn
        ++ (mwaa_service_role i bucket_arn).added_statements).all
      (fun st => !st.actions.isEmpty)) = true :=
  ⟨rfl, rfl, rfl, rfl, rfl, rfl, rfl⟩

/-- Concrete inputs whose identifiers make dep_mod 88 characters long, so
the templated environment name has 100 characters. -/
def c2_long_inputs : MWAAStackInputs :=
  { sample_inputs with
    project_name := "pppppppppppppppppppppppppppppppppppppppp"
    deployment_name := "dddddddddddddddddddddddddddddddddddddddd"
    module_name := "mmmmmm" }

/-- Claim C2, counterexample: at c2_long_inputs the managed-environment
resource name is 100 characters long, exceeding the 80-character bound
the claim says the name is truncated or validated against. -/
theorem C2_counterexample_name_exceeds_80 :
    (mkMWAAStack c2_long_inputs).mwaa_environment.name.length = 100 ∧
    80 < (mkMWAAStack c2_long_inputs).mwaa_environment.name.length := by decide

/-- Claim C2, amended: the Deployment tag value is truncated to the
256-character bound, but the environment name is templated untruncated
and unvalidated as dep_mod followed by "-environment". -/
theorem C2_amended_tag_bounded_name_untruncated (i : MWAAStackInputs) :
    (mkMWAAStack i).deployment_tag.length ≤ 256 ∧
    (mkMWAAStack i).mwaa_environment.name = dep_mod i ++ "-environment" := by
  constructor
  · show (full_dep_mod i).length ≤ 256
    rw [full_dep_mod]
    split
    · show ((dep_mod i).data.take 256).length ≤ 256
      rw [List.length_take]
      omega
    · omega
  · rfl

/-- Claim C3: no service-identity string satisfies both PassRole
condition blocks — the StringEquals sagemaker condition and the
StringLike emr-serverless condition are mutually exclusive. -/
theorem C3_pass_role_conditions_exclusive (v : String) :
    (conditionsAllow sagemaker_pass_role_statement.conditions "iam:PassedToService" v &&
     conditionsAllow emr_pass_role_statement.conditions "iam:PassedToService" v) = false := by
  by_cases h : v = "sagemaker.amazonaws.com"
  · subst h
    decide
  · simp only [conditionsAllow, sagemaker_pass_role_statement, emr_pass_role_statement,
      condValueMatches, List.all_cons, List.all_nil, Bool.and_true, Bool.and_eq_false_imp]
    intro hall
    simp only [bne_self_eq_false, Bool.false_or, if_pos rfl] at hall
    exact absurd (by simpa using hall) h

/-- Inputs supplying an existing bucket name. -/
def c4_ref_inputs : MWAAStackInputs :=
  { sample_inputs with dag_bucket_name := some "existing-dag-bucket" }

/-- Claim C4: when dag_bucket_name is supplied non-empty, the bucket
handle is a by-name reference and no created bucket (hence none of the
creation properties) is declared. -/
theorem C4_supplied_bucket_not_created (i : MWAAStackInputs) (n : String)
    (hsup : i.dag_bucket_name = some n) (hne : n ≠ "") :
    (mkMWAAStack i).dag_bucket = DagBucket.fromName n ∧
    ∀ p : BucketProps, (mkMWAAStack i).dag_bucket ≠ DagBucket.created p := by
  have hb : (mkMWAAStack i).dag_bucket = dag_bucket i := rfl
  rw [hb, dag_bucket, hsup]
  simp [hne]

/-- Claim C4 witness at concrete inputs. -/
theorem C4_supplied_bucket_not_created_witness :
    c4_ref_inputs.dag_bucket_name = some "existing-dag-bucket" ∧
    "existing-dag-bucket" ≠ "" ∧
    ((mkMWAAStack c4_ref_inputs).dag_bucket = DagBucket.fromName "existing-dag-bucket" ∧
     ∀ p : BucketProps, (mkMWAAStack c4_ref_inputs).dag_bucket ≠ DagBucket.created p) :=
  ⟨rfl, by decide,
    C4_supplied_bucket_not_created c4_ref_inputs "existing-dag-bucket" rfl (by decide)⟩

/-- Claim C5: in the S3 object read/write statement the storage-bucket
ARN appears exactly in the two resource forms arn/* and arn, and that
statement is the fourth entry of the policy document the stack builds
from the bucket handle. -/
theorem C5_bucket_arn_exactly_two_forms (i : MWAAStackInputs) :
    (s3_access_statement (mkMWAAStack i).dag_bucket.bucket_arn).resources =
      [(mkMWAAStack i).dag_bucket.bucket_arn ++ "/*",
       (mkMWAAStack i).dag_bucket.bucket_arn] ∧
    (mwaa_policy_document i (mkMWAAStack i).dag_bucket.bucket_arn)[3]? =
      some (s3_access_statement (mkMWAAStack i).dag_bucket.bucket_arn) ∧
    (mkMWAAStack i).mwaa_service_role.inline_policies =
      [("CDKmwaaPolicyDocument",
        mwaa_policy_document i (mkMWAAStack i).dag_bucket.bucket_arn)] :=
  ⟨rfl, rfl, rfl⟩

/-- Claim C6: exactly two creation-order dependencies are recorded on the
managed-environment declaration, one per file-upload deployment,
regardless of all other parameters. -/
theorem C6_exactly_two_dependencies (i : MWAAStackInputs) :
    (mkMWAAStack i).mwaa_environment.dependencies =
      [(mkMWAAStack i).plugins_deployment.id, (mkMWAAStack i).requirements_deployment.id] ∧
    (mkMWAAStack i).mwaa_environment.dependencies.length = 2 :=
  ⟨rfl, rfl⟩

/-- Claim C7: the network configuration uses exactly the first two
elements of private_subnet_ids in order (all of them when fewer than
two); elements beyond the second are never used. -/
theorem C7_first_two_subnets (i : MWAAStackInputs) :
    (mkMWAAStack i).mwaa_environment.network_configuration.subnet_ids =
      i.private_subnet_ids.take 2 ∧
    (mkMWAAStack i).mwaa_environment.network_configuration.subnet_ids.length ≤ 2 := by
  refine ⟨rfl, ?_⟩
  show (i.private_subnet_ids.take 2).length ≤ 2
  rw [List.length_take]
  omega

/-- Claim C8: the KMS statement has exactly the five catalogued actions,
not_resources equal to the single own-account key pattern with no
resources field, and the StringLike kms:ViaService condition on the
regional SQS endpoint; moreover the exclusion pattern matches a
well-formed key ARN exactly when the account segment of the ARN is the
caller account. -/
theorem C8_kms_statement_shape_and_scope (i : MWAAStackInputs) (R A K : String)
    (haccC : ':' ∉ i.account.data)
    (haccW : ∀ c ∈ i.account.data, ¬c = '*' ∧ ¬c = '?')
    (hR : ':' ∉ R.data) (hA : ':' ∉ A.data) (hK : ':' ∉ K.data) :
    (kms_statement i).actions = ["kms:Decrypt", "kms:Encrypt", "kms:ReEncrypt*",
      "kms:DescribeKey", "kms:GenerateDataKey"] ∧
    (kms_statement i).not_resources = ["arn:aws:kms:*:" ++ i.account ++ ":key/*"] ∧
    (kms_statement i).resources = [] ∧
    (kms_statement i).conditions =
      [("StringLike", "kms:ViaService", "sqs." ++ i.region ++ ".amazonaws.com")] ∧
    (mwaa_policy_document i (mkMWAAStack i).dag_bucket.bucket_arn)[4]? =
      some (kms_statement i) ∧
    (strLike ("arn:aws:kms:*:" ++ i.account ++ ":key/*")
        ("arn:aws:kms:" ++ R ++ ":" ++ A ++ ":key/" ++ K) = true ↔ A = i.account) :=
  ⟨rfl, rfl, rfl, rfl, rfl, kms_key_arn_match i.account R A K haccC haccW hR hA hK⟩

/-- Claim C8 witness at concrete inputs and a concrete key ARN. -/
theorem C8_kms_statement_shape_and_scope_witness :
    (':' ∉ sample_inputs.account.data) ∧
    (∀ c ∈ sample_inputs.account.data, ¬c = '*' ∧ ¬c = '?') ∧
    (':' ∉ "us-east-1".data) ∧ (':' ∉ "999888777666".data) ∧
    (':' ∉ "abcd-ef01".data) ∧
    ((kms_statement sample_inputs).actions = ["kms:Decrypt", "kms:Encrypt", "kms:ReEncrypt*",
      "kms:DescribeKey", "kms:GenerateDataKey"] ∧
     (kms_statement sample_inputs).not_resources =
       ["arn:aws:kms:*:" ++ sample_inputs.account ++ ":key/*"] ∧
     (kms_statement sample_inputs).resources = [] ∧
     (kms_statement sample_inputs).conditions =
       [("StringLike", "kms:ViaService", "sqs." ++ sample_inputs.region ++ ".amazonaws.com")] ∧
     (mwaa_policy_document sample_inputs
        (mkMWAAStack sample_inputs).dag_bucket.bucket_arn)[4]? =
       some (kms_statement sample_inputs) ∧
     (strLike ("arn:aws:kms:*:" ++ sample_inputs.account ++ ":key/*")
        ("arn:aws:kms:" ++ "us-east-1" ++ ":" ++ "999888777666" ++ ":key/" ++ "abcd-ef01")
          = true ↔ "999888777666" = sample_inputs.account)) :=
  ⟨by decide, by decide, by decide, by decide, by decide,
    C8_kms_statement_shape_and_scope sample_inputs "us-east-1" "999888777666" "abcd-ef01"
      (by decide) (by decide) (by decide) (by decide) (by decide)⟩

/-- Claim C9: the managed-environment declaration always sets
webserver_access_mode to the constant PUBLIC_ONLY; no constructor
parameter influences it. -/
theorem C9_webserver_access_mode_constant (i : MWAAStackInputs) :
    (mkMWAAStack i).mwaa_environment.webserver_access_mode = "PUBLIC_ONLY" :=
  rfl

/-- Inputs with no existing bucket name supplied. -/
def c10_create_inputs : MWAAStackInputs :=
  { sample_inputs with dag_bucket_name := none }

/-- Claim C10: when dag_bucket_name is not supplied, the declared bucket
is named project-deployment-module-account-region untruncated, is
versioned, and carries removal policy DESTROY. -/
theorem C10_created_bucket_name_and_removal (i : MWAAStackInputs)
    (h : i.dag_bucket_name = none) :
    (mkMWAAStack i).dag_bucket = DagBucket.created (created_dag_bucket i) ∧
    (created_dag_bucket i).bucket_name =
      i.project_name ++ "-" ++ i.deployment_name ++ "-" ++ i.module_name ++ "-"
        ++ i.account ++ "-" ++ i.region ∧
    (created_dag_bucket i).removal_policy = RemovalPolicy.DESTROY ∧
    (created_dag_bucket i).versioned = true := by
  refine ⟨?_, rfl, rfl, rfl⟩
  have hb : (mkMWAAStack i).dag_bucket = dag_bucket i := rfl
  rw [hb, dag_bucket, h]

/-- Claim C10 witness at concrete inputs. -/
theorem C10_created_bucket_name_and_removal_witness :
    c10_create_inputs.dag_bucket_name = none ∧
    ((mkMWAAStack c10_create_inputs).dag_bucket =
        DagBucket.created (created_dag_bucket c10_create_inputs) ∧
     (created_dag_bucket c10_create_inputs).bucket_name =
       c10_create_inputs.project_name ++ "-" ++ c10_create_inputs.deployment_name ++ "-"
         ++ c10_create_inputs.module_name ++ "-" ++ c10_create_inputs.account ++ "-"
         ++ c10_create_inputs.region ∧
     (created_dag_bucket c10_create_inputs).removal_policy = RemovalPolicy.DESTROY ∧
     (created_dag_bucket c10_create_inputs).versioned = true) :=
  ⟨rfl, C10_created_bucket_name_and_removal c10_create_inputs rfl⟩

end MWAA
